import Mathlib

/-!
Shallow embedding of `ensemble/volren/volume_cut_planes.py`.

The Python class `VolumeCutPlanes` holds three optional image-plane-widget
handles (x, y, z), a slicer opacity scalar constrained to [0, 1] by a
`Range` trait, and brightness/contrast scalars constrained to [-1, 1].
We model the widget handles as `Option Widget`, the mayavi lookup-table
manager as an explicit record, trait scalars as real numbers, and each
method of the class as a state-transforming function.
-/

namespace Ensemble

/-- The fields of a mayavi `scalar_lut_manager` that the code touches:
`use_default_range`, `default_data_range` and `data_range` (each range a
pair (low, high)), and the `lut_mode` string. -/
structure LUTManager where
  use_default_range : Bool
  default_data_range : ℝ × ℝ
  data_range : ℝ × ℝ
  lut_mode : String

/-- An image-plane widget as the code uses it: its lookup-table manager
(`module_manager.scalar_lut_manager`), the texture-plane opacity
(`ipw.texture_plane_property.opacity`), visibility, the plane orientation
string, and a counter of `render()` calls (a redraw request is observable
only as a count in the embedding). -/
structure Widget where
  lut_manager : LUTManager
  texture_plane_opacity : ℝ
  visible : Bool
  orientation : String
  render_count : ℕ

/-- A top-level data node of the scene (`scene_model.mayavi_scene.children`):
its `outputs` (dataset identifiers) and the scalar range of the data that it
feeds to a lookup table built on it. -/
structure DataNode where
  outputs : List ℕ
  scalar_range : ℝ × ℝ

/-- The scene model: its `mayavi_scene.children` list of data nodes. -/
structure SceneModel where
  children : List DataNode

/-- A volume actor: the code uses only `volume_actor.mapper.input`, the
identifier of the image data feeding its mapper. -/
structure VolumeActor where
  mapper_input : ℕ

/-- The state of a `VolumeCutPlanes` object: the three optional widget
handles and the three trait scalars. -/
structure VolumeCutPlanes where
  image_plane_widget_x : Option Widget
  image_plane_widget_y : Option Widget
  image_plane_widget_z : Option Widget
  slicer_alpha : ℝ
  cut_brightness : ℝ
  cut_contrast : ℝ

/-- The trait defaults: all widgets unattached, `slicer_alpha = 1.0`,
`cut_brightness = 0.0`, `cut_contrast = 0.0`. -/
noncomputable def VolumeCutPlanes.init : VolumeCutPlanes :=
  { image_plane_widget_x := none
    image_plane_widget_y := none
    image_plane_widget_z := none
    slicer_alpha := 1
    cut_brightness := 0
    cut_contrast := 0 }

/-- `_find_volume_data_source`: scan the scene's top-level children for the
first one whose `outputs` contain `volume_actor.mapper.input`; `none` when
no child matches. -/
def find_volume_data_source (scene_model : SceneModel)
    (volume_actor : VolumeActor) : Option DataNode :=
  scene_model.children.find?
    (fun child => decide (volume_actor.mapper_input ∈ child.outputs))

/-- `mlab.pipeline.image_plane_widget(data_source, plane_orientation=...)`
followed by the two configuration lines of `add_actors_to_scene`: the new
widget's lookup table is initialised from the data source's scalar range,
its `lut_mode` is set to gray and it is made invisible. -/
noncomputable def mk_image_plane_widget (data_source : DataNode)
    (orientation : String) : Widget :=
  { lut_manager :=
      { use_default_range := true
        default_data_range := data_source.scalar_range
        data_range := data_source.scalar_range
        lut_mode := "gray" }
    texture_plane_opacity := 1
    visible := false
    orientation := orientation
    render_count := 0 }

/-- `ipw.render()`: request a redraw of one (optional) widget. -/
def ipw_render : Option Widget → Option Widget
  | none => none
  | some w => some { w with render_count := w.render_count + 1 }

/-- Steps 1-5 of the brightness/contrast algorithm, lines 64-69:
given the manager's `default_data_range` and the brightness and contrast
scalars, compute the new `data_range`
`(level - radius, level + radius)` with
`level = data_level - data_radius * b` and
`radius = data_radius * 2 ** (-c)`. -/
noncomputable def cut_data_range (default_range : ℝ × ℝ) (b c : ℝ) : ℝ × ℝ :=
  let data_low := default_range.1
  let data_high := default_range.2
  let data_level := (data_low + data_high) / 2
  let data_radius := (data_high - data_low) / 2
  let level := data_level - data_radius * b
  let radius := data_radius * (2 : ℝ) ^ (-c)
  (level - radius, level + radius)

/-- `_on_cut_brightness_contrast`: when the z widget is attached, disable
default-range auto-computation on its lookup-table manager, recompute the
manager's `data_range` via `cut_data_range` from its `default_data_range`
and the current brightness/contrast traits, and render every attached
widget; when the z widget is unattached, do nothing. -/
noncomputable def on_cut_brightness_contrast (s : VolumeCutPlanes) :
    VolumeCutPlanes :=
  match s.image_plane_widget_z with
  | none => s
  | some plane_widget =>
    let lut := plane_widget.lut_manager
    let lut' : LUTManager :=
      { lut with
          use_default_range := false
          data_range :=
            cut_data_range lut.default_data_range s.cut_brightness
              s.cut_contrast }
    { s with
        image_plane_widget_x := ipw_render s.image_plane_widget_x
        image_plane_widget_y := ipw_render s.image_plane_widget_y
        image_plane_widget_z :=
          ipw_render (some { plane_widget with lut_manager := lut' }) }

/-- `add_actors_to_scene`: resolve the data source feeding the volume
actor; when none is found, return unchanged. Otherwise create one widget
per axis and store the three handles. Storing the z handle fires the
`on_trait_change` notification for `image_plane_widget_z`, which runs
`_on_cut_brightness_contrast`. -/
noncomputable def add_actors_to_scene (s : VolumeCutPlanes)
    (scene_model : SceneModel) (volume_actor : VolumeActor) :
    VolumeCutPlanes :=
  match find_volume_data_source scene_model volume_actor with
  | none => s
  | some data_source =>
    on_cut_brightness_contrast
      { s with
          image_plane_widget_x :=
            some (mk_image_plane_widget data_source ("x_axes"))
          image_plane_widget_y :=
            some (mk_image_plane_widget data_source ("y_axes"))
          image_plane_widget_z :=
            some (mk_image_plane_widget data_source ("z_axes")) }

/-- `_slicer_alpha_changed(alpha)`: for each of the three widget handles in
order, when it is attached set its texture-plane opacity to `alpha` and
render it; unattached handles are skipped.  The trait machinery stores the
new value before notifying. -/
def ipw_set_opacity_and_render (alpha : ℝ) : Option Widget → Option Widget
  | none => none
  | some w =>
    some { w with texture_plane_opacity := alpha
                  render_count := w.render_count + 1 }

/-- The state after assigning `slicer_alpha := alpha` and running the
`_slicer_alpha_changed` notification. -/
def slicer_alpha_changed (s : VolumeCutPlanes) (alpha : ℝ) :
    VolumeCutPlanes :=
  { s with
      slicer_alpha := alpha
      image_plane_widget_x :=
        ipw_set_opacity_and_render alpha s.image_plane_widget_x
      image_plane_widget_y :=
        ipw_set_opacity_and_render alpha s.image_plane_widget_y
      image_plane_widget_z :=
        ipw_set_opacity_and_render alpha s.image_plane_widget_z }

/-- Modelled from the spec: the `Range(lo, hi)` trait validator of the
external traits library (only the declarations `Range(0.0, 1.0)` and
`Range(-1.0, 1.0)` appear in `src/`). Per the spec, an assignment outside
the declared range is rejected at the boundary and not propagated. -/
noncomputable def range_assign (lo hi v : ℝ) : Except Unit ℝ :=
  if lo ≤ v ∧ v ≤ hi then Except.ok v else Except.error ()

/-- Assignment to the `slicer_alpha` trait (`Range(0.0, 1.0)`): validate,
then store and fire `_slicer_alpha_changed`. -/
noncomputable def set_slicer_alpha (s : VolumeCutPlanes) (v : ℝ) :
    Except Unit VolumeCutPlanes :=
  match range_assign 0 1 v with
  | Except.error e => Except.error e
  | Except.ok v' => Except.ok (slicer_alpha_changed s v')

/-- Assignment to the `cut_brightness` trait (`Range(-1.0, 1.0)`):
validate, then store and fire `_on_cut_brightness_contrast`. -/
noncomputable def set_cut_brightness (s : VolumeCutPlanes) (v : ℝ) :
    Except Unit VolumeCutPlanes :=
  match range_assign (-1) 1 v with
  | Except.error e => Except.error e
  | Except.ok v' =>
    Except.ok (on_cut_brightness_contrast { s with cut_brightness := v' })

/-- Assignment to the `cut_contrast` trait (`Range(-1.0, 1.0)`): validate,
then store and fire `_on_cut_brightness_contrast`. -/
noncomputable def set_cut_contrast (s : VolumeCutPlanes) (v : ℝ) :
    Except Unit VolumeCutPlanes :=
  match range_assign (-1) 1 v with
  | Except.error e => Except.error e
  | Except.ok v' =>
    Except.ok (on_cut_brightness_contrast { s with cut_contrast := v' })

/-! ### Sample objects used by the witness theorems -/

/-- A data node whose outputs contain dataset 2. -/
noncomputable def sample_node_hit : DataNode :=
  { outputs := [2], scalar_range := (0, 255) }

/-- A data node whose outputs do not contain dataset 2. -/
noncomputable def sample_node_miss : DataNode :=
  { outputs := [1], scalar_range := (0, 255) }

/-- A scene whose single child feeds dataset 2. -/
noncomputable def sample_scene_hit : SceneModel :=
  { children := [sample_node_hit] }

/-- A scene none of whose children feeds dataset 2. -/
noncomputable def sample_scene_miss : SceneModel :=
  { children := [sample_node_miss] }

/-- A volume actor whose mapper input is dataset 2. -/
def sample_actor : VolumeActor := { mapper_input := 2 }

/-- A z widget as `add_actors_to_scene` would create it. -/
noncomputable def sample_widget : Widget :=
  mk_image_plane_widget sample_node_hit ("z_axes")

/-- A cut-planes state with only the z widget attached and the default
trait values. -/
noncomputable def sample_state : VolumeCutPlanes :=
  { VolumeCutPlanes.init with image_plane_widget_z := some sample_widget }

/-! ### Helper lemmas about the brightness/contrast range formula -/

lemma cut_data_range_mk_fst (dl dh b c : ℝ) :
    (cut_data_range (dl, dh) b c).1 =
      (dl + dh) / 2 - (dh - dl) / 2 * b - (dh - dl) / 2 * (2 : ℝ) ^ (-c) :=
  rfl

lemma cut_data_range_mk_snd (dl dh b c : ℝ) :
    (cut_data_range (dl, dh) b c).2 =
      (dl + dh) / 2 - (dh - dl) / 2 * b + (dh - dl) / 2 * (2 : ℝ) ^ (-c) :=
  rfl

lemma cut_data_range_mk_width (dl dh b c : ℝ) :
    (cut_data_range (dl, dh) b c).2 - (cut_data_range (dl, dh) b c).1 =
      (dh - dl) * (2 : ℝ) ^ (-c) := by
  rw [cut_data_range_mk_fst, cut_data_range_mk_snd]; ring

lemma two_rpow_neg_pos (c : ℝ) : 0 < (2 : ℝ) ^ (-c) :=
  Real.rpow_pos_of_pos (by norm_num) _

lemma cut_data_range_zero_zero (p : ℝ × ℝ) : cut_data_range p 0 0 = p := by
  have h1 : (cut_data_range p 0 0).1 = p.1 := by
    rw [show p = (p.1, p.2) from rfl, cut_data_range_mk_fst, neg_zero,
      Real.rpow_zero]
    ring
  have h2 : (cut_data_range p 0 0).2 = p.2 := by
    rw [show p = (p.1, p.2) from rfl, cut_data_range_mk_snd, neg_zero,
      Real.rpow_zero]
    ring
  exact Prod.ext_iff.mpr ⟨h1, h2⟩

lemma on_cut_brightness_contrast_scalars (s : VolumeCutPlanes) :
    (on_cut_brightness_contrast s).slicer_alpha = s.slicer_alpha ∧
    (on_cut_brightness_contrast s).cut_brightness = s.cut_brightness ∧
    (on_cut_brightness_contrast s).cut_contrast = s.cut_contrast := by
  cases hz : s.image_plane_widget_z <;>
    simp [on_cut_brightness_contrast, hz]

/-! ### Claim theorems -/

/-- C1: for every attached z cut-plane widget whose lookup-table manager
reports default data range (data_low, data_high), and for every brightness
b in [-1,1] and contrast c in [-1,1], the brightness/contrast
recomputation sets the active display range to (L - R, L + R) where
level = (data_low+data_high)/2, radius = (data_high-data_low)/2,
L = level - radius*b and R = radius * 2^(-c). -/
theorem cut_brightness_contrast_sets_range (s : VolumeCutPlanes)
    (wz : Widget) (hz : s.image_plane_widget_z = some wz)
    (hb1 : -1 ≤ s.cut_brightness) (hb2 : s.cut_brightness ≤ 1)
    (hc1 : -1 ≤ s.cut_contrast) (hc2 : s.cut_contrast ≤ 1) :
    ∃ wz', (on_cut_brightness_contrast s).image_plane_widget_z = some wz' ∧
      wz'.lut_manager.data_range =
        ((wz.lut_manager.default_data_range.1 +
            wz.lut_manager.default_data_range.2) / 2 -
          (wz.lut_manager.default_data_range.2 -
            wz.lut_manager.default_data_range.1) / 2 * s.cut_brightness -
          (wz.lut_manager.default_data_range.2 -
            wz.lut_manager.default_data_range.1) / 2 *
            (2 : ℝ) ^ (-s.cut_contrast),
         (wz.lut_manager.default_data_range.1 +
            wz.lut_manager.default_data_range.2) / 2 -
          (wz.lut_manager.default_data_range.2 -
            wz.lut_manager.default_data_range.1) / 2 * s.cut_brightness +
          (wz.lut_manager.default_data_range.2 -
            wz.lut_manager.default_data_range.1) / 2 *
            (2 : ℝ) ^ (-s.cut_contrast)) := by
  refine ⟨{ wz with
      lut_manager :=
        { wz.lut_manager with
            use_default_range := false
            data_range :=
              cut_data_range wz.lut_manager.default_data_range
                s.cut_brightness s.cut_contrast }
      render_count := wz.render_count + 1 }, ?_, ?_⟩
  · simp [on_cut_brightness_contrast, hz, ipw_render]
  · rfl

/-- C1 witness: the theorem applied to a state with the z widget attached
and default traits. -/
theorem cut_brightness_contrast_sets_range_witness :
    sample_state.image_plane_widget_z = some sample_widget ∧
    ∃ wz', (on_cut_brightness_contrast sample_state).image_plane_widget_z =
        some wz' ∧
      wz'.lut_manager.data_range =
        ((sample_widget.lut_manager.default_data_range.1 +
            sample_widget.lut_manager.default_data_range.2) / 2 -
          (sample_widget.lut_manager.default_data_range.2 -
            sample_widget.lut_manager.default_data_range.1) / 2 *
            sample_state.cut_brightness -
          (sample_widget.lut_manager.default_data_range.2 -
            sample_widget.lut_manager.default_data_range.1) / 2 *
            (2 : ℝ) ^ (-sample_state.cut_contrast),
         (sample_widget.lut_manager.default_data_range.1 +
            sample_widget.lut_manager.default_data_range.2) / 2 -
          (sample_widget.lut_manager.default_data_range.2 -
            sample_widget.lut_manager.default_data_range.1) / 2 *
            sample_state.cut_brightness +
          (sample_widget.lut_manager.default_data_range.2 -
            sample_widget.lut_manager.default_data_range.1) / 2 *
            (2 : ℝ) ^ (-sample_state.cut_contrast)) :=
  ⟨rfl,
    cut_brightness_contrast_sets_range sample_state sample_widget rfl
      (by norm_num [sample_state, VolumeCutPlanes.init])
      (by norm_num [sample_state, VolumeCutPlanes.init])
      (by norm_num [sample_state, VolumeCutPlanes.init])
      (by norm_num [sample_state, VolumeCutPlanes.init])⟩

/-- C2: with brightness 0 and contrast 0 the recomputation sets the active
display range to exactly the manager's default data range: the mapping is
the identity at (0, 0). -/
theorem cut_brightness_contrast_identity (s : VolumeCutPlanes)
    (wz : Widget) (hz : s.image_plane_widget_z = some wz)
    (hb : s.cut_brightness = 0) (hc : s.cut_contrast = 0) :
    ∃ wz', (on_cut_brightness_contrast s).image_plane_widget_z = some wz' ∧
      wz'.lut_manager.data_range = wz.lut_manager.default_data_range := by
  refine ⟨{ wz with
      lut_manager :=
        { wz.lut_manager with
            use_default_range := false
            data_range :=
              cut_data_range wz.lut_manager.default_data_range
                s.cut_brightness s.cut_contrast }
      render_count := wz.render_count + 1 }, ?_, ?_⟩
  · simp [on_cut_brightness_contrast, hz, ipw_render]
  · simp [hb, hc, cut_data_range_zero_zero]

/-- C2 witness: the theorem applied to a state with the z widget attached
and the default traits (brightness 0, contrast 0). -/
theorem cut_brightness_contrast_identity_witness :
    ∃ wz', (on_cut_brightness_contrast sample_state).image_plane_widget_z =
        some wz' ∧
      wz'.lut_manager.data_range =
        sample_widget.lut_manager.default_data_range :=
  cut_brightness_contrast_identity sample_state sample_widget rfl rfl rfl

/-- C3: for fixed brightness b in [-1,1] and a non-degenerate default
range data_low < data_high, contrast c > 0 makes the display range
strictly narrower than at contrast 0, and c < 0 makes it strictly
wider. -/
theorem cut_contrast_narrows_and_widens (dl dh b c : ℝ) (hlt : dl < dh)
    (hb1 : -1 ≤ b) (hb2 : b ≤ 1) :
    (0 < c →
      (cut_data_range (dl, dh) b c).2 - (cut_data_range (dl, dh) b c).1 <
        (cut_data_range (dl, dh) b 0).2 -
          (cut_data_range (dl, dh) b 0).1) ∧
    (c < 0 →
      (cut_data_range (dl, dh) b 0).2 - (cut_data_range (dl, dh) b 0).1 <
        (cut_data_range (dl, dh) b c).2 -
          (cut_data_range (dl, dh) b c).1) := by
  have hpos : 0 < dh - dl := by linarith
  constructor
  · intro hc
    rw [cut_data_range_mk_width, cut_data_range_mk_width, neg_zero,
      Real.rpow_zero, mul_one]
    have h2 : (2 : ℝ) ^ (-c) < 1 :=
      Real.rpow_lt_one_of_one_lt_of_neg (by norm_num) (by linarith)
    exact mul_lt_of_lt_one_right hpos h2
  · intro hc
    rw [cut_data_range_mk_width, cut_data_range_mk_width, neg_zero,
      Real.rpow_zero, mul_one]
    have h2 : (1 : ℝ) < (2 : ℝ) ^ (-c) :=
      (Real.one_lt_rpow_iff_of_pos (by norm_num)).mpr
        (Or.inl ⟨by norm_num, by linarith⟩)
    exact lt_mul_of_one_lt_right hpos h2

/-- C3 witness: the theorem applied at default range (0, 255), brightness
0 and contrast 1. -/
theorem cut_contrast_narrows_and_widens_witness :
    (0 < (1 : ℝ) →
      (cut_data_range ((0 : ℝ), (255 : ℝ)) 0 1).2 -
          (cut_data_range ((0 : ℝ), (255 : ℝ)) 0 1).1 <
        (cut_data_range ((0 : ℝ), (255 : ℝ)) 0 0).2 -
          (cut_data_range ((0 : ℝ), (255 : ℝ)) 0 0).1) ∧
    ((1 : ℝ) < 0 →
      (cut_data_range ((0 : ℝ), (255 : ℝ)) 0 0).2 -
          (cut_data_range ((0 : ℝ), (255 : ℝ)) 0 0).1 <
        (cut_data_range ((0 : ℝ), (255 : ℝ)) 0 1).2 -
          (cut_data_range ((0 : ℝ), (255 : ℝ)) 0 1).1) :=
  cut_contrast_narrows_and_widens 0 255 0 1 (by norm_num) (by norm_num)
    (by norm_num)

/-- C7: with brightness 1 the center of the computed display range is
data_low, and with brightness -1 it is data_high, for every contrast. -/
theorem cut_brightness_extreme_center (dl dh c : ℝ) :
    ((cut_data_range (dl, dh) 1 c).1 +
        (cut_data_range (dl, dh) 1 c).2) / 2 = dl ∧
    ((cut_data_range (dl, dh) (-1) c).1 +
        (cut_data_range (dl, dh) (-1) c).2) / 2 = dh := by
  constructor <;>
    · rw [cut_data_range_mk_fst, cut_data_range_mk_snd]; ring

/-- C9: for data_low ≤ data_high and brightness, contrast in [-1,1] the
computed display range is well ordered: first component ≤ second. -/
theorem cut_range_well_ordered (dl dh b c : ℝ) (hle : dl ≤ dh)
    (hb1 : -1 ≤ b) (hb2 : b ≤ 1) (hc1 : -1 ≤ c) (hc2 : c ≤ 1) :
    (cut_data_range (dl, dh) b c).1 ≤ (cut_data_range (dl, dh) b c).2 := by
  rw [cut_data_range_mk_fst, cut_data_range_mk_snd]
  have hR : 0 ≤ (dh - dl) / 2 * (2 : ℝ) ^ (-c) :=
    mul_nonneg (by linarith) (two_rpow_neg_pos c).le
  linarith

/-- C9 witness: the theorem applied at range (0, 255), brightness 1,
contrast -1. -/
theorem cut_range_well_ordered_witness :
    (cut_data_range ((0 : ℝ), (255 : ℝ)) 1 (-1)).1 ≤
      (cut_data_range ((0 : ℝ), (255 : ℝ)) 1 (-1)).2 :=
  cut_range_well_ordered 0 255 1 (-1) (by norm_num) (by norm_num)
    (by norm_num) (by norm_num) (by norm_num)

/-- C4: when no top-level data node's outputs contain the volume actor's
mapper input, `add_actors_to_scene` returns with the state unchanged and
all three widget handles still unattached (the function is total, so no
error is raised). -/
theorem add_actors_no_data_source (s : VolumeCutPlanes)
    (scene_model : SceneModel) (volume_actor : VolumeActor)
    (h : ∀ child ∈ scene_model.children,
      volume_actor.mapper_input ∉ child.outputs)
    (hx : s.image_plane_widget_x = none)
    (hy : s.image_plane_widget_y = none)
    (hz : s.image_plane_widget_z = none) :
    add_actors_to_scene s scene_model volume_actor = s ∧
    (add_actors_to_scene s scene_model volume_actor).image_plane_widget_x =
      none ∧
    (add_actors_to_scene s scene_model volume_actor).image_plane_widget_y =
      none ∧
    (add_actors_to_scene s scene_model volume_actor).image_plane_widget_z =
      none := by
  have hfind : find_volume_data_source scene_model volume_actor = none := by
    rw [find_volume_data_source, List.find?_eq_none]
    intro child hc
    simpa using h child hc
  have hres : add_actors_to_scene s scene_model volume_actor = s := by
    simp [add_actors_to_scene, hfind]
  exact ⟨hres, by rw [hres, hx], by rw [hres, hy], by rw [hres, hz]⟩

/-- C4 witness: the theorem applied to the all-unattached initial state
and a scene whose single data node does not feed the actor. -/
theorem add_actors_no_data_source_witness :
    add_actors_to_scene VolumeCutPlanes.init sample_scene_miss
        sample_actor = VolumeCutPlanes.init ∧
    (add_actors_to_scene VolumeCutPlanes.init sample_scene_miss
        sample_actor).image_plane_widget_x = none ∧
    (add_actors_to_scene VolumeCutPlanes.init sample_scene_miss
        sample_actor).image_plane_widget_y = none ∧
    (add_actors_to_scene VolumeCutPlanes.init sample_scene_miss
        sample_actor).image_plane_widget_z = none :=
  add_actors_no_data_source VolumeCutPlanes.init sample_scene_miss
    sample_actor
    (by
      intro child hc
      rw [sample_scene_miss, List.mem_singleton] at hc
      subst hc
      decide)
    rfl rfl rfl

/-- C5: after one `add_actors_to_scene` call from the all-unattached
state, either all three widget handles are still unattached or all three
are attached — never a strict subset. -/
theorem add_actors_all_or_nothing (s : VolumeCutPlanes)
    (scene_model : SceneModel) (volume_actor : VolumeActor)
    (hx : s.image_plane_widget_x = none)
    (hy : s.image_plane_widget_y = none)
    (hz : s.image_plane_widget_z = none) :
    ((add_actors_to_scene s scene_model volume_actor).image_plane_widget_x =
        none ∧
      (add_actors_to_scene s scene_model
          volume_actor).image_plane_widget_y = none ∧
      (add_actors_to_scene s scene_model
          volume_actor).image_plane_widget_z = none) ∨
    ((∃ w, (add_actors_to_scene s scene_model
          volume_actor).image_plane_widget_x = some w) ∧
      (∃ w, (add_actors_to_scene s scene_model
          volume_actor).image_plane_widget_y = some w) ∧
      (∃ w, (add_actors_to_scene s scene_model
          volume_actor).image_plane_widget_z = some w)) := by
  cases hfind : find_volume_data_source scene_model volume_actor with
  | none =>
    left
    simp [add_actors_to_scene, hfind, hx, hy, hz]
  | some data_source =>
    right
    simp [add_actors_to_scene, hfind, on_cut_brightness_contrast,
      ipw_render]

/-- C5 witness: the theorem applied to the all-unattached initial state
and a scene whose single data node does feed the actor. -/
theorem add_actors_all_or_nothing_witness :
    ((add_actors_to_scene VolumeCutPlanes.init sample_scene_hit
          sample_actor).image_plane_widget_x = none ∧
      (add_actors_to_scene VolumeCutPlanes.init sample_scene_hit
          sample_actor).image_plane_widget_y = none ∧
      (add_actors_to_scene VolumeCutPlanes.init sample_scene_hit
          sample_actor).image_plane_widget_z = none) ∨
    ((∃ w, (add_actors_to_scene VolumeCutPlanes.init sample_scene_hit
          sample_actor).image_plane_widget_x = some w) ∧
      (∃ w, (add_actors_to_scene VolumeCutPlanes.init sample_scene_hit
          sample_actor).image_plane_widget_y = some w) ∧
      (∃ w, (add_actors_to_scene VolumeCutPlanes.init sample_scene_hit
          sample_actor).image_plane_widget_z = some w)) :=
  add_actors_all_or_nothing VolumeCutPlanes.init sample_scene_hit
    sample_actor rfl rfl rfl

/-- C6: setting the slicer-opacity scalar to alpha in [0,1] sets the
texture-plane opacity of every attached widget to alpha and requests one
redraw of each; when no widget is attached, all three handles are left
unchanged (still `none`) and no error is raised. -/
theorem slicer_alpha_propagates (s : VolumeCutPlanes) (alpha : ℝ)
    (h0 : 0 ≤ alpha) (h1 : alpha ≤ 1) :
    (∀ w, s.image_plane_widget_x = some w →
      (slicer_alpha_changed s alpha).image_plane_widget_x =
        some { w with texture_plane_opacity := alpha
                      render_count := w.render_count + 1 }) ∧
    (∀ w, s.image_plane_widget_y = some w →
      (slicer_alpha_changed s alpha).image_plane_widget_y =
        some { w with texture_plane_opacity := alpha
                      render_count := w.render_count + 1 }) ∧
    (∀ w, s.image_plane_widget_z = some w →
      (slicer_alpha_changed s alpha).image_plane_widget_z =
        some { w with texture_plane_opacity := alpha
                      render_count := w.render_count + 1 }) ∧
    (s.image_plane_widget_x = none ∧ s.image_plane_widget_y = none ∧
        s.image_plane_widget_z = none →
      (slicer_alpha_changed s alpha).image_plane_widget_x = none ∧
      (slicer_alpha_changed s alpha).image_plane_widget_y = none ∧
      (slicer_alpha_changed s alpha).image_plane_widget_z = none) := by
  refine ⟨?_, ?_, ?_, ?_⟩
  · intro w hw
    simp [slicer_alpha_changed, ipw_set_opacity_and_render, hw]
  · intro w hw
    simp [slicer_alpha_changed, ipw_set_opacity_and_render, hw]
  · intro w hw
    simp [slicer_alpha_changed, ipw_set_opacity_and_render, hw]
  · rintro ⟨hx, hy, hz⟩
    simp [slicer_alpha_changed, ipw_set_opacity_and_render, hx, hy, hz]

/-- C6 witness: the theorem applied at alpha = 1/2 to a state with only
the z widget attached. -/
theorem slicer_alpha_propagates_witness :
    (∀ w, sample_state.image_plane_widget_x = some w →
      (slicer_alpha_changed sample_state
          (1 / 2)).image_plane_widget_x =
        some { w with texture_plane_opacity := 1 / 2
                      render_count := w.render_count + 1 }) ∧
    (∀ w, sample_state.image_plane_widget_y = some w →
      (slicer_alpha_changed sample_state
          (1 / 2)).image_plane_widget_y =
        some { w with texture_plane_opacity := 1 / 2
                      render_count := w.render_count + 1 }) ∧
    (∀ w, sample_state.image_plane_widget_z = some w →
      (slicer_alpha_changed sample_state
          (1 / 2)).image_plane_widget_z =
        some { w with texture_plane_opacity := 1 / 2
                      render_count := w.render_count + 1 }) ∧
    (sample_state.image_plane_widget_x = none ∧
        sample_state.image_plane_widget_y = none ∧
        sample_state.image_plane_widget_z = none →
      (slicer_alpha_changed sample_state
          (1 / 2)).image_plane_widget_x = none ∧
      (slicer_alpha_changed sample_state
          (1 / 2)).image_plane_widget_y = none ∧
      (slicer_alpha_changed sample_state
          (1 / 2)).image_plane_widget_z = none) :=
  slicer_alpha_propagates sample_state (1 / 2) (by norm_num) (by norm_num)

/-- C10: the opacity handler is total under partial attachment: for every
state (any subset of the three handles attached) and every alpha, it
writes opacity and a render request to exactly the attached widgets and
maps unattached handles to `none` without dereferencing them. -/
theorem slicer_alpha_total_partial_attachment (s : VolumeCutPlanes)
    (alpha : ℝ) :
    ((s.image_plane_widget_x = none →
        (slicer_alpha_changed s alpha).image_plane_widget_x = none) ∧
      ∀ w, s.image_plane_widget_x = some w →
        (slicer_alpha_changed s alpha).image_plane_widget_x =
          some { w with texture_plane_opacity := alpha
                        render_count := w.render_count + 1 }) ∧
    ((s.image_plane_widget_y = none →
        (slicer_alpha_changed s alpha).image_plane_widget_y = none) ∧
      ∀ w, s.image_plane_widget_y = some w →
        (slicer_alpha_changed s alpha).image_plane_widget_y =
          some { w with texture_plane_opacity := alpha
                        render_count := w.render_count + 1 }) ∧
    ((s.image_plane_widget_z = none →
        (slicer_alpha_changed s alpha).image_plane_widget_z = none) ∧
      ∀ w, s.image_plane_widget_z = some w →
        (slicer_alpha_changed s alpha).image_plane_widget_z =
          some { w with texture_plane_opacity := alpha
                        render_count := w.render_count + 1 }) := by
  refine ⟨⟨?_, ?_⟩, ⟨?_, ?_⟩, ⟨?_, ?_⟩⟩ <;>
    · intro hw
      try intro hw2
      simp_all [slicer_alpha_changed, ipw_set_opacity_and_render]

/-- C10 witness: the theorem applied at alpha = 1/4 to a partially
attached state (only z attached). -/
theorem slicer_alpha_total_partial_attachment_witness :
    ((sample_state.image_plane_widget_x = none →
        (slicer_alpha_changed sample_state
            (1 / 4)).image_plane_widget_x = none) ∧
      ∀ w, sample_state.image_plane_widget_x = some w →
        (slicer_alpha_changed sample_state
            (1 / 4)).image_plane_widget_x =
          some { w with texture_plane_opacity := 1 / 4
                        render_count := w.render_count + 1 }) ∧
    ((sample_state.image_plane_widget_y = none →
        (slicer_alpha_changed sample_state
            (1 / 4)).image_plane_widget_y = none) ∧
      ∀ w, sample_state.image_plane_widget_y = some w →
        (slicer_alpha_changed sample_state
            (1 / 4)).image_plane_widget_y =
          some { w with texture_plane_opacity := 1 / 4
                        render_count := w.render_count + 1 }) ∧
    ((sample_state.image_plane_widget_z = none →
        (slicer_alpha_changed sample_state
            (1 / 4)).image_plane_widget_z = none) ∧
      ∀ w, sample_state.image_plane_widget_z = some w →
        (slicer_alpha_changed sample_state
            (1 / 4)).image_plane_widget_z =
          some { w with texture_plane_opacity := 1 / 4
                        render_count := w.render_count + 1 }) :=
  slicer_alpha_total_partial_attachment sample_state (1 / 4)

/-- C8: assigning a brightness or contrast value outside [-1,1], or a
slicer-opacity value outside [0,1], is rejected at the assignment
boundary by the declared `Range` constraints, and every accepted
assignment leaves the stored trait value inside its declared range, so an
out-of-range value is never propagated into the transfer-function
computation or the widget opacity. -/
theorem range_traits_reject_out_of_range (s : VolumeCutPlanes) (v : ℝ) :
    (¬ (0 ≤ v ∧ v ≤ 1) →
      set_slicer_alpha s v = Except.error ()) ∧
    (¬ (-1 ≤ v ∧ v ≤ 1) →
      set_cut_brightness s v = Except.error () ∧
      set_cut_contrast s v = Except.error ()) ∧
    (∀ t, set_slicer_alpha s v = Except.ok t →
      0 ≤ t.slicer_alpha ∧ t.slicer_alpha ≤ 1) ∧
    (∀ t, set_cut_brightness s v = Except.ok t →
      -1 ≤ t.cut_brightness ∧ t.cut_brightness ≤ 1) ∧
    (∀ t, set_cut_contrast s v = Except.ok t →
      -1 ≤ t.cut_contrast ∧ t.cut_contrast ≤ 1) := by
  refine ⟨?_, ?_, ?_, ?_, ?_⟩
  · intro hv
    simp only [set_slicer_alpha, range_assign, if_neg hv]
  · intro hv
    constructor <;>
      simp only [set_cut_brightness, set_cut_contrast, range_assign,
        if_neg hv]
  · intro t ht
    by_cases hv : 0 ≤ v ∧ v ≤ 1
    · simp only [set_slicer_alpha, range_assign, if_pos hv,
        Except.ok.injEq] at ht
      rw [← ht]
      exact ⟨hv.1, hv.2⟩
    · rw [set_slicer_alpha, range_assign, if_neg hv] at ht
      exact absurd ht (by simp)
  · intro t ht
    by_cases hv : -1 ≤ v ∧ v ≤ 1
    · simp only [set_cut_brightness, range_assign, if_pos hv,
        Except.ok.injEq] at ht
      rw [← ht]
      rcases on_cut_brightness_contrast_scalars
          { s with cut_brightness := v } with ⟨-, hpres, -⟩
      rw [hpres]
      exact ⟨hv.1, hv.2⟩
    · rw [set_cut_brightness, range_assign, if_neg hv] at ht
      exact absurd ht (by simp)
  · intro t ht
    by_cases hv : -1 ≤ v ∧ v ≤ 1
    · simp only [set_cut_contrast, range_assign, if_pos hv,
        Except.ok.injEq] at ht
      rw [← ht]
      rcases on_cut_brightness_contrast_scalars
          { s with cut_contrast := v } with ⟨-, -, hpres⟩
      rw [hpres]
      exact ⟨hv.1, hv.2⟩
    · rw [set_cut_contrast, range_assign, if_neg hv] at ht
      exact absurd ht (by simp)

/-- C8 witness: the theorem applied at v = 2 to the initial state. -/
theorem range_traits_reject_out_of_range_witness :
    (¬ ((0 : ℝ) ≤ 2 ∧ (2 : ℝ) ≤ 1) →
      set_slicer_alpha VolumeCutPlanes.init 2 = Except.error ()) ∧
    (¬ ((-1 : ℝ) ≤ 2 ∧ (2 : ℝ) ≤ 1) →
      set_cut_brightness VolumeCutPlanes.init 2 = Except.error () ∧
      set_cut_contrast VolumeCutPlanes.init 2 = Except.error ()) ∧
    (∀ t, set_slicer_alpha VolumeCutPlanes.init 2 = Except.ok t →
      0 ≤ t.slicer_alpha ∧ t.slicer_alpha ≤ 1) ∧
    (∀ t, set_cut_brightness VolumeCutPlanes.init 2 = Except.ok t →
      -1 ≤ t.cut_brightness ∧ t.cut_brightness ≤ 1) ∧
    (∀ t, set_cut_contrast VolumeCutPlanes.init 2 = Except.ok t →
      -1 ≤ t.cut_contrast ∧ t.cut_contrast ≤ 1) :=
  range_traits_reject_out_of_range VolumeCutPlanes.init 2

end Ensemble
